import Mathlib

/-!
Verification of the status-resolution core of the energy-intelligence
repository (`src/daily_power_actor.py`).

The embedding models the external world (HTTP transport, HTML element
lookup, the local fallback file) as explicit outcome values handed to the
resolver, and translates the Python control flow of
`PowerIntelligence.fetch_eskom_status` and `PowerIntelligence.run` into
total Lean functions over those outcomes.  Strings are modelled over their
character lists; case mapping and the whitespace/digit classes of the
Python regex are modelled for the ASCII range (all texts appearing in the
classification rules and in the claims are ASCII).
-/

namespace PowerActor

/-- `StageResult` mirrors the dict returned by `fetch_eskom_status`
(lines 118-122): the mutable local state `(stage, status_text, raw_text)`
of the Python function. -/
structure StageResult where
  stage : Int
  status : String
  raw_text : String
deriving DecidableEq, Repr

/-- The state at the top of `fetch_eskom_status` (lines 46-48):
`stage = -1`, `status_text = "Unknown"`, `raw_text = ""`. -/
def initState : StageResult := { stage := -1, status := "Unknown", raw_text := "" }

/-- Outcome of the tier-1 HTTP fetch plus HTML span lookup: a raised
transport exception, a non-200 response, or a 200 response whose
`span#lsstatus` element is absent or carries the given stripped text. -/
inductive FetchOutcome where
  | exn : FetchOutcome
  | httpError : Nat → FetchOutcome
  | ok : Option String → FetchOutcome
deriving DecidableEq, Repr

/-- Outcome of the tier-2 `GetStatus` API call: exception (including a
non-integer body failing `int(...)`), non-200 response, or a parsed
integer body. -/
inductive ApiOutcome where
  | exn : ApiOutcome
  | httpError : Nat → ApiOutcome
  | ok : Int → ApiOutcome
deriving DecidableEq, Repr

/-- Outcome of the tier-3 local file: `os.path.exists` false, a read
exception, or a successfully parsed file whose status span is absent or
carries the given text. -/
inductive FileOutcome where
  | absent : FileOutcome
  | readError : FileOutcome
  | ok : Option String → FileOutcome
deriving DecidableEq, Repr

/-- Python `str.upper()` restricted to ASCII case mapping. -/
def pyUpper (s : String) : String := String.mk (s.data.map Char.toUpper)

/-- `containsSub pat hay` is Python `pat in hay` (substring containment)
on character lists. -/
def containsSub (pat : List Char) : List Char → Bool
  | [] => pat.isPrefixOf []
  | c :: cs => pat.isPrefixOf (c :: cs) || containsSub pat cs

/-- Python substring test `pat in hay` on strings. -/
def strContains (hay pat : String) : Bool := containsSub pat.data hay.data

/-- ASCII decimal digit, the `\d` class of the regex on ASCII input. -/
def digitChar (c : Char) : Bool := decide ('0' ≤ c) && decide (c ≤ '9')

/-- ASCII whitespace, the `\s` class of the regex on ASCII input. -/
def spaceChar (c : Char) : Bool :=
  decide (c = ' ') || decide (c = '\t') || decide (c = '\n') ||
  decide (c = '\r') || decide (c = '\x0b') || decide (c = '\x0c')

/-- Numeric value of a digit run, as `int(...)` reads it. -/
def digitsToNat (ds : List Char) : Nat :=
  ds.foldl (fun n c => 10 * n + (c.toNat - '0'.toNat)) 0

/-- The pattern word of the regex `STAGE\s*(\d+)`. -/
def stagePat : List Char := "STAGE".data

/-- Try to match `STAGE\s*(\d+)` at the head of `cs`, returning the value
of the captured digit group.  Greedy `\s*` followed by `\d+` is equivalent
to skipping all whitespace and then requiring at least one digit, because
no whitespace character is a digit. -/
def matchStageAt (cs : List Char) : Option Nat :=
  if stagePat.isPrefixOf cs then
    let ds := ((cs.drop 5).dropWhile spaceChar).takeWhile digitChar
    if ds.isEmpty then none else some (digitsToNat ds)
  else none

/-- `re.search(r"STAGE\s*(\d+)", s)`: the match at the leftmost starting
position, as a captured value. -/
def searchStage : List Char → Option Nat
  | [] => none
  | c :: cs =>
    match matchStageAt (c :: cs) with
    | some n => some n
    | none => searchStage cs

/-- Tier-1 classification of the extracted span (lines 55-70): `raw_text`
is the span text, else the literal `"Unknown"`; then the
NOT-LOAD-SHEDDING rule, the STAGE-pattern rule, and the verbatim
pass-through of unrecognized text other than `"Unknown"`. -/
def classifySpan (span : Option String) (s : StageResult) : StageResult :=
  let raw := span.getD "Unknown"
  let u := pyUpper raw
  if strContains u "NOT LOAD SHEDDING" then
    { stage := 0, status := "Suspended", raw_text := raw }
  else if strContains u "STAGE" then
    match searchStage u.data with
    | some n => { stage := (n : Int), status := "Active", raw_text := raw }
    | none => { s with raw_text := raw }
  else if raw ≠ "Unknown" then
    { s with status := raw, raw_text := raw }
  else
    { s with raw_text := raw }

/-- Tier 1 (lines 50-74): exceptions and non-200 responses leave the
state untouched; a 200 response is classified. -/
def tier1 (o : FetchOutcome) (s : StageResult) : StageResult :=
  match o with
  | .exn => s
  | .httpError _ => s
  | .ok span => classifySpan span s

/-- Tier 2 (lines 76-95): attempted only while `stage == -1`; a parsed
value `v > 0` maps to `stage = v - 1` with `Active`/`Suspended` status and
`raw_text = "API Value: v"`; anything else leaves the state untouched. -/
def tier2 (o : ApiOutcome) (s : StageResult) : StageResult :=
  if s.stage = -1 then
    match o with
    | .exn => s
    | .httpError _ => s
    | .ok v =>
      if v > 0 then
        { stage := v - 1,
          status := if v - 1 > 0 then "Active" else "Suspended",
          raw_text := "API Value: " ++ toString v }
      else s
  else s

/-- Tier-3 classification of the local file span (lines 105-114): the
same two pattern rules as tier 1, but with no else-branch — unrecognized
text updates `raw_text` only. -/
def classifySpan3 (span : Option String) (s : StageResult) : StageResult :=
  let raw := span.getD "Unknown"
  let u := pyUpper raw
  if strContains u "NOT LOAD SHEDDING" then
    { stage := 0, status := "Suspended", raw_text := raw }
  else if strContains u "STAGE" then
    match searchStage u.data with
    | some n => { stage := (n : Int), status := "Active", raw_text := raw }
    | none => { s with raw_text := raw }
  else
    { s with raw_text := raw }

/-- Tier 3 (lines 97-116): attempted only while `stage == -1` and the
local file exists; a read exception leaves the state untouched. -/
def tier3 (o : FileOutcome) (s : StageResult) : StageResult :=
  if s.stage = -1 then
    match o with
    | .absent => s
    | .readError => s
    | .ok span => classifySpan3 span s
  else s

/-- `fetch_eskom_status` (lines 42-122): the three-tier chain from the
initial sentinel state, with the final normalization of an empty
`raw_text` to the status value (line 121). -/
def fetch_eskom_status (o1 : FetchOutcome) (o2 : ApiOutcome) (o3 : FileOutcome) : StageResult :=
  let s := tier3 o3 (tier2 o2 (tier1 o1 initState))
  { s with raw_text := if s.raw_text = "" then s.status else s.raw_text }

/-- The payload dict built in `run` (lines 143-153). -/
structure Payload where
  stage : Int
  status : String
  eskom_text : String
  power_alert_color : String
  provider : String
deriving DecidableEq, Repr

/-- Payload construction (lines 143-153): `stage` is coerced from the
sentinel -1 to 0, `status` and `raw_text` pass through verbatim. -/
def buildPayload (e : StageResult) (alert : String) : Payload :=
  { stage := if e.stage = -1 then 0 else e.stage,
    status := e.status,
    eskom_text := e.raw_text,
    power_alert_color := alert,
    provider := "Eskom + PowerAlert.co.za" }

/-- Observable external actions of `run`: the Supabase insert (with its
success or caught failure), the Apify dataset push, and the exit code. -/
inductive Event where
  | supabaseInsert : Payload → Bool → Event
  | datasetPush : Payload → Event
  | exitCode : Nat → Event
deriving DecidableEq, Repr

/-- `run` (lines 124-168) as the sequence of external actions it
performs, given the resolved stage result, the alert color, and whether
the Supabase insert succeeds: the validity gate aborts with exit code 1
before any persistence; otherwise the insert is attempted (its failure
caught at lines 158-162), the dataset push follows unconditionally with
the same payload, and the run exits 0. -/
def run (e : StageResult) (alert : String) (insertOk : Bool) : List Event :=
  if e.stage = -1 ∧ alert = "Unknown" then
    [Event.exitCode 1]
  else
    [Event.supabaseInsert (buildPayload e alert) insertOk,
     Event.datasetPush (buildPayload e alert),
     Event.exitCode 0]

/-- Tier-1 transport or parse failure: exception, non-200 response, or
missing status element (lines 55-56 and 71-74). -/
def tier1Failed : FetchOutcome → Bool
  | .exn => true
  | .httpError _ => true
  | .ok none => true
  | .ok (some _) => false

/-- Tier-2 failure to resolve: exception, non-200 response, or a parsed
value `v ≤ 0` (lines 90-95). -/
def tier2Failed : ApiOutcome → Bool
  | .exn => true
  | .httpError _ => true
  | .ok v => decide (v ≤ 0)

/-- Tier-3 failure: file absent, read exception, or missing status
element. -/
def tier3Failed : FileOutcome → Bool
  | .absent => true
  | .readError => true
  | .ok none => true
  | .ok (some _) => false

/-- Tier 1 resolves the stage: a 200 response whose span text matches one
of the two classification patterns. -/
def tier1Resolves : FetchOutcome → Bool
  | .ok (some t) =>
    strContains (pyUpper t) "NOT LOAD SHEDDING" || (searchStage (pyUpper t).data).isSome
  | _ => false

/-- Tier 2 resolves the stage: a 200 response parsing to `v > 0`. -/
def tier2Resolves : ApiOutcome → Bool
  | .ok v => decide (v > 0)
  | _ => false

/-- Tier 3 resolves the stage: an existing, readable file whose span text
matches one of the two classification patterns. -/
def tier3Resolves : FileOutcome → Bool
  | .ok (some t) =>
    strContains (pyUpper t) "NOT LOAD SHEDDING" || (searchStage (pyUpper t).data).isSome
  | _ => false

/-! ### Helper lemmas -/

/-- A successful head match of the pattern starts with the word STAGE. -/
theorem matchStageAt_some_isPrefixOf {cs : List Char} {n : Nat}
    (h : matchStageAt cs = some n) : stagePat.isPrefixOf cs = true := by
  unfold matchStageAt at h
  by_cases hp : stagePat.isPrefixOf cs = true
  · exact hp
  · simp [hp] at h

/-- A successful regex search implies the substring test for STAGE
succeeds. -/
theorem searchStage_some_contains {cs : List Char} {n : Nat}
    (h : searchStage cs = some n) : containsSub stagePat cs = true := by
  induction cs with
  | nil => simp [searchStage] at h
  | cons c cs ih =>
    unfold searchStage at h
    unfold containsSub
    cases hm : matchStageAt (c :: cs) with
    | some m => simp [matchStageAt_some_isPrefixOf hm]
    | none =>
      rw [hm] at h
      simp [ih h]

theorem unknown_not_nls : strContains (pyUpper "Unknown") "NOT LOAD SHEDDING" = false := by
  decide

theorem unknown_not_stage : strContains (pyUpper "Unknown") "STAGE" = false := by
  decide

/-- A missing span and the literal text `"Unknown"` are classified
identically by tier 1: only `raw_text` is touched. -/
theorem classifySpan_none (s : StageResult) :
    classifySpan none s = { s with raw_text := "Unknown" } := by
  simp [classifySpan, unknown_not_nls, unknown_not_stage]

theorem classifySpan3_none (s : StageResult) :
    classifySpan3 none s = { s with raw_text := "Unknown" } := by
  simp [classifySpan3, unknown_not_nls, unknown_not_stage]

/-- Tier-1 classification never drives the stage below the sentinel. -/
theorem classifySpan_stage_lb (span : Option String) (s : StageResult)
    (hs : -1 ≤ s.stage) : -1 ≤ (classifySpan span s).stage := by
  simp only [classifySpan]
  split
  · show (-1 : Int) ≤ 0
    decide
  split
  · split
    · rename_i n h
      show -1 ≤ (n : Int)
      omega
    · exact hs
  split
  · exact hs
  · exact hs

theorem classifySpan3_stage_lb (span : Option String) (s : StageResult)
    (hs : -1 ≤ s.stage) : -1 ≤ (classifySpan3 span s).stage := by
  simp only [classifySpan3]
  split
  · show (-1 : Int) ≤ 0
    decide
  split
  · split
    · rename_i n h
      show -1 ≤ (n : Int)
      omega
    · exact hs
  · exact hs

theorem tier1_stage_lb (o : FetchOutcome) (s : StageResult)
    (hs : -1 ≤ s.stage) : -1 ≤ (tier1 o s).stage := by
  cases o with
  | exn => exact hs
  | httpError c => exact hs
  | ok span => exact classifySpan_stage_lb span s hs

/-- Tier 2 is skipped once the stage is resolved. -/
theorem tier2_skip (o : ApiOutcome) (s : StageResult) (h : s.stage ≠ -1) :
    tier2 o s = s := by
  unfold tier2
  simp [h]

/-- Tier 2 on a parsed integer body, while the stage is unresolved. -/
theorem tier2_ok (v : Int) (s : StageResult) (h : s.stage = -1) :
    tier2 (.ok v) s =
      if v > 0 then
        { stage := v - 1,
          status := if v - 1 > 0 then "Active" else "Suspended",
          raw_text := "API Value: " ++ toString v }
      else s := by
  unfold tier2
  rw [if_pos h]

theorem tier2_stage_lb (o : ApiOutcome) (s : StageResult)
    (hs : -1 ≤ s.stage) : -1 ≤ (tier2 o s).stage := by
  by_cases h : s.stage = -1
  · cases o with
    | exn =>
      unfold tier2
      split <;> exact hs
    | httpError c =>
      unfold tier2
      split <;> exact hs
    | ok v =>
      rw [tier2_ok v s h]
      split
      · rename_i hv
        show -1 ≤ v - 1
        omega
      · exact hs
  · rw [tier2_skip o s h]
    exact hs

theorem tier3_stage_lb (o : FileOutcome) (s : StageResult)
    (hs : -1 ≤ s.stage) : -1 ≤ (tier3 o s).stage := by
  unfold tier3
  split
  · cases o with
    | absent => exact hs
    | readError => exact hs
    | ok span => exact classifySpan3_stage_lb span s hs
  · exact hs

/-- The resolver only ever returns the sentinel -1 or a non-negative
stage. -/
theorem fetch_stage_lb (o1 : FetchOutcome) (o2 : ApiOutcome) (o3 : FileOutcome) :
    -1 ≤ (fetch_eskom_status o1 o2 o3).stage := by
  unfold fetch_eskom_status
  exact tier3_stage_lb o3 _ (tier2_stage_lb o2 _ (tier1_stage_lb o1 initState (by norm_num [initState])))

/-- Tier 3 is skipped once the stage is resolved. -/
theorem tier3_skip (o : FileOutcome) (s : StageResult) (h : s.stage ≠ -1) :
    tier3 o s = s := by
  unfold tier3
  simp [h]

/-- Tier-1 classification when the text contains NOT LOAD SHEDDING. -/
theorem classifySpan_nls (t : String) (s : StageResult)
    (h : strContains (pyUpper t) "NOT LOAD SHEDDING" = true) :
    classifySpan (some t) s = { stage := 0, status := "Suspended", raw_text := t } := by
  simp only [classifySpan, Option.getD_some]
  rw [if_pos h]

/-- Tier-1 classification when the text avoids NOT LOAD SHEDDING and the
regex search succeeds. -/
theorem classifySpan_stage_match (t : String) (s : StageResult) (n : Nat)
    (h1 : strContains (pyUpper t) "NOT LOAD SHEDDING" = false)
    (h2 : searchStage (pyUpper t).data = some n) :
    classifySpan (some t) s = { stage := (n : Int), status := "Active", raw_text := t } := by
  have hst : strContains (pyUpper t) "STAGE" = true := searchStage_some_contains h2
  simp only [classifySpan, Option.getD_some]
  rw [if_neg (by simp [h1]), if_pos hst, h2]

/-- Tier-3 classification when the text contains NOT LOAD SHEDDING. -/
theorem classifySpan3_nls (t : String) (s : StageResult)
    (h : strContains (pyUpper t) "NOT LOAD SHEDDING" = true) :
    classifySpan3 (some t) s = { stage := 0, status := "Suspended", raw_text := t } := by
  simp only [classifySpan3, Option.getD_some]
  rw [if_pos h]

/-- Tier-3 classification when the text avoids NOT LOAD SHEDDING and the
regex search succeeds. -/
theorem classifySpan3_stage_match (t : String) (s : StageResult) (n : Nat)
    (h1 : strContains (pyUpper t) "NOT LOAD SHEDDING" = false)
    (h2 : searchStage (pyUpper t).data = some n) :
    classifySpan3 (some t) s = { stage := (n : Int), status := "Active", raw_text := t } := by
  have hst : strContains (pyUpper t) "STAGE" = true := searchStage_some_contains h2
  simp only [classifySpan3, Option.getD_some]
  rw [if_neg (by simp [h1]), if_pos hst, h2]

/-- If tier 1 resolves the stage, tiers 2 and 3 are skipped and the
resolver returns tier 1's classification unchanged (the raw text being
nonempty). -/
theorem fetch_resolved_tier1 (t : String) (o2 : ApiOutcome) (o3 : FileOutcome)
    (r : StageResult) (hr : classifySpan (some t) initState = r)
    (h0 : r.stage ≠ -1) (hraw : r.raw_text ≠ "") :
    fetch_eskom_status (.ok (some t)) o2 o3 = r := by
  simp only [fetch_eskom_status, tier1]
  rw [hr, tier2_skip _ _ h0, tier3_skip _ _ h0]
  cases r
  simp_all

/-- The final raw-text normalization does not touch the stage. -/
theorem fetch_stage_eq (o1 : FetchOutcome) (o2 : ApiOutcome) (o3 : FileOutcome) :
    (fetch_eskom_status o1 o2 o3).stage = (tier3 o3 (tier2 o2 (tier1 o1 initState))).stage := rfl

/-- A tier-1 text matching either pattern resolves to a non-negative
stage. -/
theorem classifySpan_resolves_lb (t : String) (s : StageResult)
    (h : strContains (pyUpper t) "NOT LOAD SHEDDING" = true ∨
         (searchStage (pyUpper t).data).isSome = true) :
    0 ≤ (classifySpan (some t) s).stage := by
  rcases h with h | h
  · rw [classifySpan_nls t s h]
  · obtain ⟨n, hn⟩ := Option.isSome_iff_exists.mp h
    by_cases h1 : strContains (pyUpper t) "NOT LOAD SHEDDING" = true
    · rw [classifySpan_nls t s h1]
    · rw [classifySpan_stage_match t s n (by simp only [Bool.not_eq_true] at h1; exact h1) hn]
      show (0 : Int) ≤ (n : Int)
      omega

/-- A tier-3 text matching either pattern resolves to a non-negative
stage. -/
theorem classifySpan3_resolves_lb (t : String) (s : StageResult)
    (h : strContains (pyUpper t) "NOT LOAD SHEDDING" = true ∨
         (searchStage (pyUpper t).data).isSome = true) :
    0 ≤ (classifySpan3 (some t) s).stage := by
  rcases h with h | h
  · rw [classifySpan3_nls t s h]
  · obtain ⟨n, hn⟩ := Option.isSome_iff_exists.mp h
    by_cases h1 : strContains (pyUpper t) "NOT LOAD SHEDDING" = true
    · rw [classifySpan3_nls t s h1]
    · rw [classifySpan3_stage_match t s n (by simp only [Bool.not_eq_true] at h1; exact h1) hn]
      show (0 : Int) ≤ (n : Int)
      omega

/-- If tier 1 resolves, the final stage is not the sentinel. -/
theorem stage_ne_of_tier1Resolves (o1 : FetchOutcome) (o2 : ApiOutcome) (o3 : FileOutcome)
    (h : tier1Resolves o1 = true) : (fetch_eskom_status o1 o2 o3).stage ≠ -1 := by
  cases o1 with
  | exn => simp [tier1Resolves] at h
  | httpError c => simp [tier1Resolves] at h
  | ok span =>
    cases span with
    | none => simp [tier1Resolves] at h
    | some t =>
      have h0 : 0 ≤ (classifySpan (some t) initState).stage := by
        apply classifySpan_resolves_lb
        simpa [tier1Resolves] using h
      have hne : (tier1 (.ok (some t)) initState).stage ≠ -1 := by
        show (classifySpan (some t) initState).stage ≠ -1
        omega
      rw [fetch_stage_eq, tier2_skip _ _ hne, tier3_skip _ _ hne]
      exact hne

/-- If tier 2 resolves, the final stage is not the sentinel. -/
theorem stage_ne_of_tier2Resolves (o1 : FetchOutcome) (o2 : ApiOutcome) (o3 : FileOutcome)
    (h : tier2Resolves o2 = true) : (fetch_eskom_status o1 o2 o3).stage ≠ -1 := by
  cases o2 with
  | exn => simp [tier2Resolves] at h
  | httpError c => simp [tier2Resolves] at h
  | ok v =>
    have hv : 0 < v := by simpa [tier2Resolves] using h
    rw [fetch_stage_eq]
    by_cases h1 : (tier1 o1 initState).stage = -1
    · rw [tier2_ok v _ h1, if_pos hv]
      rw [tier3_skip _ _ (by show (v - 1 : Int) ≠ -1; omega)]
      show (v - 1 : Int) ≠ -1
      omega
    · rw [tier2_skip _ _ h1, tier3_skip _ _ h1]
      exact h1

/-- If tier 3 resolves, the final stage is not the sentinel. -/
theorem stage_ne_of_tier3Resolves (o1 : FetchOutcome) (o2 : ApiOutcome) (o3 : FileOutcome)
    (h : tier3Resolves o3 = true) : (fetch_eskom_status o1 o2 o3).stage ≠ -1 := by
  cases o3 with
  | absent => simp [tier3Resolves] at h
  | readError => simp [tier3Resolves] at h
  | ok span =>
    cases span with
    | none => simp [tier3Resolves] at h
    | some t =>
      rw [fetch_stage_eq]
      by_cases h2 : (tier2 o2 (tier1 o1 initState)).stage = -1
      · have ht : tier3 (.ok (some t)) (tier2 o2 (tier1 o1 initState)) =
            classifySpan3 (some t) (tier2 o2 (tier1 o1 initState)) := by
          unfold tier3
          rw [if_pos h2]
        rw [ht]
        have h0 : 0 ≤ (classifySpan3 (some t) (tier2 o2 (tier1 o1 initState))).stage := by
          apply classifySpan3_resolves_lb
          simpa [tier3Resolves] using h
        omega
      · rw [tier3_skip _ _ h2]
        exact h2

/-! ### Claims -/

/-- C9: for every primary-page extracted status text containing
"NOT LOAD SHEDDING" (any letter case, modelled over ASCII), the resolver
yields stage 0 and status Suspended with the text passed through as raw
text — for every text, so in particular the rule takes precedence over
the STAGE pattern when both substrings are present. -/
theorem claim_C9 (t : String) (o2 : ApiOutcome) (o3 : FileOutcome)
    (h : strContains (pyUpper t) "NOT LOAD SHEDDING" = true) :
    fetch_eskom_status (.ok (some t)) o2 o3 =
      { stage := 0, status := "Suspended", raw_text := t } := by
  have ht : t ≠ "" := by
    intro he
    rw [he] at h
    exact absurd h (by decide)
  refine fetch_resolved_tier1 t o2 o3 _ (classifySpan_nls t initState h) ?_ ht
  show (0 : Int) ≠ -1
  decide

/-- C9 witness: a text containing both NOT LOAD SHEDDING and the STAGE
pattern is classified as stage 0 Suspended. -/
theorem claim_C9_witness :
    strContains (pyUpper "Not Load Shedding (Stage 4)") "NOT LOAD SHEDDING" = true ∧
    strContains (pyUpper "Not Load Shedding (Stage 4)") "STAGE" = true ∧
    fetch_eskom_status (.ok (some "Not Load Shedding (Stage 4)")) .exn .absent =
      { stage := 0, status := "Suspended", raw_text := "Not Load Shedding (Stage 4)" } :=
  ⟨by decide, by decide, claim_C9 "Not Load Shedding (Stage 4)" .exn .absent (by decide)⟩

/-- C10: in tier 1, a missing status element and a status element whose
text is exactly "Unknown" are indistinguishable: the classification step
produces the identical sentinel state, and the whole resolver produces
identical results whatever the later tiers do. -/
theorem claim_C10 :
    classifySpan none initState = classifySpan (some "Unknown") initState ∧
    classifySpan none initState = { stage := -1, status := "Unknown", raw_text := "Unknown" } ∧
    ∀ (o2 : ApiOutcome) (o3 : FileOutcome),
      fetch_eskom_status (.ok none) o2 o3 = fetch_eskom_status (.ok (some "Unknown")) o2 o3 := by
  refine ⟨by decide, by decide, fun o2 o3 => ?_⟩
  simp only [fetch_eskom_status, tier1]
  rw [show classifySpan none initState = classifySpan (some "Unknown") initState from by decide]

/-- C3 counterexample: the text "STAGE 40" contains the substring
"STAGE 4", yet the resolver yields stage 40, not stage 4 — the regex
captures the whole digit run. -/
theorem claim_C3_counterexample :
    strContains (pyUpper "STAGE 40") "STAGE 4" = true ∧
    fetch_eskom_status (.ok (some "STAGE 40")) .exn .absent =
      { stage := 40, status := "Active", raw_text := "STAGE 40" } := by
  decide

/-- C3 amended: for every tier-1 text that does not contain
"NOT LOAD SHEDDING" and whose first regex match of STAGE-whitespace-digits
captures the value 4, the resolver yields stage 4 and status Active. -/
theorem claim_C3 (t : String) (o2 : ApiOutcome) (o3 : FileOutcome)
    (h1 : strContains (pyUpper t) "NOT LOAD SHEDDING" = false)
    (h2 : searchStage (pyUpper t).data = some 4) :
    fetch_eskom_status (.ok (some t)) o2 o3 =
      { stage := 4, status := "Active", raw_text := t } := by
  have ht : t ≠ "" := by
    intro he
    rw [he] at h2
    exact absurd h2 (by decide)
  refine fetch_resolved_tier1 t o2 o3 _ (classifySpan_stage_match t initState 4 h1 h2) ?_ ht
  show (4 : Int) ≠ -1
  decide

/-- C3 witness: a surrounding text whose first STAGE match reads 4. -/
theorem claim_C3_witness :
    strContains (pyUpper "Eskom: stage 4 loadshedding") "NOT LOAD SHEDDING" = false ∧
    searchStage (pyUpper "Eskom: stage 4 loadshedding").data = some 4 ∧
    fetch_eskom_status (.ok (some "Eskom: stage 4 loadshedding")) .exn .absent =
      { stage := 4, status := "Active", raw_text := "Eskom: stage 4 loadshedding" } :=
  ⟨by decide, by decide, claim_C3 "Eskom: stage 4 loadshedding" .exn .absent (by decide) (by decide)⟩

/-- C6 counterexample: tier 3's classification is not identical to
tier 1's: on the unrecognized text "FOO" tier 1 passes the text through
into the status field while tier 3 leaves the status untouched. -/
theorem claim_C6_counterexample :
    classifySpan3 (some "FOO") initState ≠ classifySpan (some "FOO") initState := by
  decide

/-- C6 amended: tier 3 is attempted only while the stage is unresolved
(and not at all when the local file is absent), and its classification
agrees with tier 1's on a missing element and on every text that contains
NOT LOAD SHEDDING, contains STAGE, or equals "Unknown"; it differs from
tier 1 only in omitting the verbatim pass-through of other unrecognized
text. -/
theorem claim_C6 :
    (∀ (o : FileOutcome) (s : StageResult), s.stage ≠ -1 → tier3 o s = s) ∧
    (∀ s : StageResult, tier3 .absent s = s) ∧
    (∀ s : StageResult, classifySpan3 none s = classifySpan none s) ∧
    (∀ (t : String) (s : StageResult),
      strContains (pyUpper t) "NOT LOAD SHEDDING" = true ∨
      strContains (pyUpper t) "STAGE" = true ∨ t = "Unknown" →
      classifySpan3 (some t) s = classifySpan (some t) s) := by
  refine ⟨tier3_skip, fun s => ?_, fun s => ?_, fun t s h => ?_⟩
  · unfold tier3
    split <;> rfl
  · rw [classifySpan3_none, classifySpan_none]
  · simp only [classifySpan, classifySpan3, Option.getD_some]
    by_cases h1 : strContains (pyUpper t) "NOT LOAD SHEDDING" = true
    · rw [if_pos h1, if_pos h1]
    · rw [if_neg h1, if_neg h1]
      by_cases h2 : strContains (pyUpper t) "STAGE" = true
      · rw [if_pos h2, if_pos h2]
      · rw [if_neg h2, if_neg h2]
        have ht : t = "Unknown" := by
          rcases h with h | h | h
          · exact absurd h h1
          · exact absurd h h2
          · exact h
        rw [if_neg (by simp [ht])]

/-- C6 witness: the skip rule at a resolved state and the agreement rule
on a STAGE text. -/
theorem claim_C6_witness :
    tier3 .readError { stage := 2, status := "Active", raw_text := "x" } =
      { stage := 2, status := "Active", raw_text := "x" } ∧
    classifySpan3 (some "Stage 3") initState = classifySpan (some "Stage 3") initState :=
  ⟨claim_C6.1 .readError _ (by decide),
   claim_C6.2.2.2 "Stage 3" initState (Or.inr (Or.inl (by decide)))⟩

/-- C1: the BothSourcesUnresolved gate fires exactly when the resolver
stage is -1 and the alert color is "Unknown" simultaneously: the run then
performs no persistence or dataset push and exits 1; for every other
combination a record is built and dispatched to both sinks and the run
exits 0. -/
theorem claim_C1 (e : StageResult) (a : String) (ok : Bool) :
    (run e a ok = [Event.exitCode 1] ↔ e.stage = -1 ∧ a = "Unknown") ∧
    (¬(e.stage = -1 ∧ a = "Unknown") →
      run e a ok = [Event.supabaseInsert (buildPayload e a) ok,
                    Event.datasetPush (buildPayload e a), Event.exitCode 0]) := by
  unfold run
  by_cases hg : e.stage = -1 ∧ a = "Unknown"
  · rw [if_pos hg]
    exact ⟨⟨fun _ => hg, fun _ => rfl⟩, fun hn => absurd hg hn⟩
  · rw [if_neg hg]
    refine ⟨⟨fun hh => ?_, fun hh => absurd hh hg⟩, fun _ => rfl⟩
    simp at hh

/-- C1 witness: the gate at both-unresolved inputs, and the full dispatch
at a resolved input. -/
theorem claim_C1_witness :
    run { stage := -1, status := "Unknown", raw_text := "Unknown" } "Unknown" true =
      [Event.exitCode 1] ∧
    run { stage := 2, status := "Active", raw_text := "Stage 2" } "Green" true =
      [Event.supabaseInsert (buildPayload { stage := 2, status := "Active", raw_text := "Stage 2" } "Green") true,
       Event.datasetPush (buildPayload { stage := 2, status := "Active", raw_text := "Stage 2" } "Green"),
       Event.exitCode 0] :=
  ⟨(claim_C1 _ _ _).1.mpr (by decide), (claim_C1 _ _ _).2 (by decide)⟩

/-- C2: tier 2 is attempted only while tier 1 left the stage at the
sentinel -1; a parsed integer v > 0 yields stage v - 1 with status Active
when the stage is positive and Suspended when it is 0, while v ≤ 0 leaves
the state unresolved and unchanged. -/
theorem claim_C2 :
    (∀ (o : ApiOutcome) (s : StageResult), s.stage ≠ -1 → tier2 o s = s) ∧
    (∀ (v : Int) (s : StageResult), s.stage = -1 → 0 < v →
      tier2 (.ok v) s =
        { stage := v - 1,
          status := if v - 1 > 0 then "Active" else "Suspended",
          raw_text := "API Value: " ++ toString v }) ∧
    (∀ (v : Int) (s : StageResult), s.stage = -1 → v ≤ 0 → tier2 (.ok v) s = s) := by
  refine ⟨tier2_skip, fun v s h hv => ?_, fun v s h hv => ?_⟩
  · rw [tier2_ok v s h, if_pos hv]
  · rw [tier2_ok v s h, if_neg (by omega)]

/-- C2 witness: v = 3 gives stage 2 Active, v = 1 gives stage 0
Suspended, v = 0 leaves the sentinel state unchanged. -/
theorem claim_C2_witness :
    tier2 (.ok 3) initState = { stage := 2, status := "Active", raw_text := "API Value: 3" } ∧
    tier2 (.ok 1) initState = { stage := 0, status := "Suspended", raw_text := "API Value: 1" } ∧
    tier2 (.ok 0) initState = initState := by
  refine ⟨?_, ?_, claim_C2.2.2 0 initState rfl (by decide)⟩
  · rw [claim_C2.2.1 3 initState rfl (by decide)]
    decide
  · rw [claim_C2.2.1 1 initState rfl (by decide)]
    decide

/-- C4: on a successful build, the payload's status is the resolver
status verbatim; its stage equals the resolver stage unless that is the
sentinel -1, which is coerced to 0; and dispatch proceeds with that
payload. -/
theorem claim_C4 (e : StageResult) (a : String) (ok : Bool)
    (hg : ¬(e.stage = -1 ∧ a = "Unknown")) :
    (buildPayload e a).status = e.status ∧
    (e.stage = -1 → (buildPayload e a).stage = 0) ∧
    (e.stage ≠ -1 → (buildPayload e a).stage = e.stage) ∧
    run e a ok = [Event.supabaseInsert (buildPayload e a) ok,
                  Event.datasetPush (buildPayload e a), Event.exitCode 0] := by
  refine ⟨rfl, fun h => ?_, fun h => ?_, ?_⟩
  · unfold buildPayload
    simp [h]
  · unfold buildPayload
    simp [h]
  · unfold run
    rw [if_neg hg]

/-- C4 witness: stage -1 with alert "Green" persists stage 0 while the
status "Unknown" passes through verbatim. -/
theorem claim_C4_witness :
    (buildPayload { stage := -1, status := "Unknown", raw_text := "t" } "Green").stage = 0 ∧
    (buildPayload { stage := -1, status := "Unknown", raw_text := "t" } "Green").status = "Unknown" :=
  ⟨(claim_C4 _ "Green" true (by decide)).2.1 rfl,
   (claim_C4 _ "Green" true (by decide)).1⟩

/-- C8: when the validity gate passes and the storage insert fails, the
failure is caught and the dataset push is still performed afterwards with
the same unmodified payload, and the run still completes with exit code
0. -/
theorem claim_C8 (e : StageResult) (a : String)
    (hg : ¬(e.stage = -1 ∧ a = "Unknown")) :
    run e a false = [Event.supabaseInsert (buildPayload e a) false,
                     Event.datasetPush (buildPayload e a), Event.exitCode 0] := by
  unfold run
  rw [if_neg hg]

/-- C8 witness: a failed insert at a concrete resolved input is followed
by the dataset push of the same payload. -/
theorem claim_C8_witness :
    run { stage := 4, status := "Active", raw_text := "STAGE 4" } "Red" false =
      [Event.supabaseInsert (buildPayload { stage := 4, status := "Active", raw_text := "STAGE 4" } "Red") false,
       Event.datasetPush (buildPayload { stage := 4, status := "Active", raw_text := "STAGE 4" } "Red"),
       Event.exitCode 0] :=
  claim_C8 _ "Red" (by decide)

/-- C5: every payload that reaches persistence (the Supabase insert or
the dataset push) in a run driven by the resolver has a non-negative
stage: the resolver only produces the sentinel -1, which the builder
coerces to 0, or a non-negative stage from the regex capture or from
v - 1 with v > 0. -/
theorem claim_C5 (o1 : FetchOutcome) (o2 : ApiOutcome) (o3 : FileOutcome)
    (a : String) (ok : Bool) (p : Payload)
    (h : Event.datasetPush p ∈ run (fetch_eskom_status o1 o2 o3) a ok ∨
         ∃ b, Event.supabaseInsert p b ∈ run (fetch_eskom_status o1 o2 o3) a ok) :
    0 ≤ p.stage := by
  have hlb : -1 ≤ (fetch_eskom_status o1 o2 o3).stage := fetch_stage_lb o1 o2 o3
  have hp : p = buildPayload (fetch_eskom_status o1 o2 o3) a := by
    unfold run at h
    by_cases hg : (fetch_eskom_status o1 o2 o3).stage = -1 ∧ a = "Unknown"
    · rw [if_pos hg] at h
      rcases h with h | ⟨b, h⟩ <;> simp at h
    · rw [if_neg hg] at h
      rcases h with h | ⟨b, h⟩
      · simpa using h
      · have hb : p = buildPayload (fetch_eskom_status o1 o2 o3) a ∧ b = ok := by
          simpa using h
        exact hb.1
  rw [hp]
  unfold buildPayload
  by_cases hs : (fetch_eskom_status o1 o2 o3).stage = -1
  · simp [hs]
  · simp only [if_neg hs]
    omega

/-- C5 witness: a concrete pushed payload with non-negative stage. -/
theorem claim_C5_witness :
    Event.datasetPush (buildPayload (fetch_eskom_status .exn (.ok 3) .absent) "Green")
      ∈ run (fetch_eskom_status .exn (.ok 3) .absent) "Green" true ∧
    0 ≤ (buildPayload (fetch_eskom_status .exn (.ok 3) .absent) "Green").stage :=
  ⟨by decide, claim_C5 .exn (.ok 3) .absent "Green" true _ (Or.inl (by decide))⟩

/-- C7: the resolver is total over all modelled tier outcomes (every
transport or parse failure is an explicit outcome, none escapes); when
all three tiers fail it returns exactly the sentinel triple
stage -1, status "Unknown", raw_text "Unknown" (the empty raw text being
normalized to the status value); and the sentinel stage -1 is returned
only when none of the three tiers resolved. -/
theorem claim_C7 (o1 : FetchOutcome) (o2 : ApiOutcome) (o3 : FileOutcome) :
    (tier1Failed o1 = true → tier2Failed o2 = true → tier3Failed o3 = true →
      fetch_eskom_status o1 o2 o3 = { stage := -1, status := "Unknown", raw_text := "Unknown" }) ∧
    ((fetch_eskom_status o1 o2 o3).stage = -1 →
      tier1Resolves o1 = false ∧ tier2Resolves o2 = false ∧ tier3Resolves o3 = false) := by
  constructor
  · intro h1 h2 h3
    have e1 : tier1 o1 initState = initState ∨
        tier1 o1 initState = { stage := -1, status := "Unknown", raw_text := "Unknown" } := by
      cases o1 with
      | exn => exact Or.inl rfl
      | httpError c => exact Or.inl rfl
      | ok span =>
        cases span with
        | none =>
          right
          show classifySpan none initState = _
          rw [classifySpan_none]
          rfl
        | some t => simp [tier1Failed] at h1
    have e2 : ∀ s : StageResult, s.stage = -1 → tier2 o2 s = s := by
      intro s hs
      cases o2 with
      | exn =>
        unfold tier2
        rw [if_pos hs]
      | httpError c =>
        unfold tier2
        rw [if_pos hs]
      | ok v =>
        have hv : v ≤ 0 := by simpa [tier2Failed] using h2
        rw [tier2_ok v s hs, if_neg (by omega)]
    have e3 : ∀ s : StageResult, s.stage = -1 →
        tier3 o3 s = s ∨ tier3 o3 s = { s with raw_text := "Unknown" } := by
      intro s hs
      cases o3 with
      | absent =>
        left
        unfold tier3
        rw [if_pos hs]
      | readError =>
        left
        unfold tier3
        rw [if_pos hs]
      | ok span =>
        cases span with
        | none =>
          right
          unfold tier3
          rw [if_pos hs]
          exact classifySpan3_none s
        | some t => simp [tier3Failed] at h3
    simp only [fetch_eskom_status]
    rcases e1 with e1 | e1
    · rw [e1, e2 initState rfl]
      rcases e3 initState rfl with e3 | e3 <;> rw [e3] <;> decide
    · rw [e1, e2 { stage := -1, status := "Unknown", raw_text := "Unknown" } rfl]
      rcases e3 { stage := -1, status := "Unknown", raw_text := "Unknown" } rfl with e3 | e3 <;>
        rw [e3] <;> decide
  · intro h
    refine ⟨?_, ?_, ?_⟩
    · by_contra hb
      rw [Bool.not_eq_false] at hb
      exact stage_ne_of_tier1Resolves o1 o2 o3 hb h
    · by_contra hb
      rw [Bool.not_eq_false] at hb
      exact stage_ne_of_tier2Resolves o1 o2 o3 hb h
    · by_contra hb
      rw [Bool.not_eq_false] at hb
      exact stage_ne_of_tier3Resolves o1 o2 o3 hb h

/-- C7 witness: tier-1 transport error with tiers 2 and 3 unavailable
yields the sentinel triple, and no tier resolved. -/
theorem claim_C7_witness :
    fetch_eskom_status .exn (.httpError 503) .absent =
      { stage := -1, status := "Unknown", raw_text := "Unknown" } ∧
    (tier1Resolves .exn = false ∧ tier2Resolves (.httpError 503) = false ∧
      tier3Resolves .absent = false) :=
  ⟨(claim_C7 _ _ _).1 rfl rfl rfl, (claim_C7 _ _ _).2 (by decide)⟩

end PowerActor
